import Mathlib

/-!
Verification of the session workflow controller of the healthcare
translation Streamlit app (src/app/main.py).

The app keeps three session-state fields (`original_transcript`,
`checked_transcript`, `translation`) and wires four phases: acquire
audio, transcribe, translate, synthesize speech.  The three button
handlers of main.py are embedded below as pure state-transition
functions; the external services (transcription, translation, speech
synthesis) are parameters returning `Except` values, mirroring the
Python calls which either return a value or raise.
-/

namespace HealthcareApp

/-- Session state of the app: the three fields initialised at
main.py lines 184-189 (each starts as the empty string). -/
structure Session where
  original_transcript : String
  checked_transcript : String
  translation : String
deriving DecidableEq, Repr

/-- Python truthiness of a string (`if not transcript`, line 241, and
`if st.session_state.translation`, line 252): a string is truthy iff
it is not the empty string.  A whitespace-only string is truthy. -/
def pyTruthy (s : String) : Bool :=
  !(s == "")

/-- The transcript-variant selector of line 234: Original or Checked. -/
inductive TranscriptVariant
  | original
  | checked
deriving DecidableEq, Repr

/-- Line 235: `transcript = st.session_state.original_transcript if
transcript_to_translate == "Original" else st.session_state.checked_transcript`. -/
def selectTranscript (s : Session) (v : TranscriptVariant) : String :=
  match v with
  | TranscriptVariant.original => s.original_transcript
  | TranscriptVariant.checked => s.checked_transcript

/-- The fixed language list offered by both selectors (lines 237-238). -/
def supportedLanguages : List String :=
  ["English", "Urdu", "Spanish", "French", "German", "Italian",
   "Japanese", "Korean", "Portuguese", "Russian", "Chinese"]

/-- Result of the Transcribe Audio handler: the session state after the
handler ran, and whether `st.success` was reached (line 221). -/
structure TranscribeResult where
  state : Session
  succeeded : Bool
deriving DecidableEq, Repr

/-- The Transcribe Audio button handler (main.py lines 217-225):
`original, checked = transcribe_audio(audio_data, file_name)` followed by
the two session-state assignments.  `transcribe_audio` is the external
Transcription Service; a raised exception (`Except.error`) aborts the
handler before any assignment, leaving the session untouched. -/
def onTranscribe (s : Session) (audio_data : List Nat) (file_name : String)
    (transcribe_audio : List Nat → String → Except String (String × String)) :
    TranscribeResult :=
  match transcribe_audio audio_data file_name with
  | Except.ok (original, checked) =>
      { state := { s with original_transcript := original,
                          checked_transcript := checked },
        succeeded := true }
  | Except.error _ =>
      { state := s, succeeded := false }

/-- Result of the Translate handler: the session state afterwards,
whether the `st.warning` of line 242 fired, the text handed to the
Translation Service (`none` when the service was not invoked at all),
and whether `st.success` (line 247) was reached. -/
structure TranslateResult where
  state : Session
  warned : Bool
  invokedWith : Option String
  succeeded : Bool
deriving DecidableEq, Repr

/-- The Translate button handler (main.py lines 240-247).  Guard of
line 241: `if not transcript` warns and makes no service call;
otherwise `st.session_state.translation = translate_transcript(
transcript, source_lang, target_lang)`.  A raised exception
(`Except.error`) aborts before the assignment. -/
def onTranslate (s : Session) (v : TranscriptVariant)
    (source_lang target_lang : String)
    (translate_transcript : String → String → String → Except String String) :
    TranslateResult :=
  let transcript := selectTranscript s v
  if pyTruthy transcript = false then
    { state := s, warned := true, invokedWith := none, succeeded := false }
  else
    match translate_transcript transcript source_lang target_lang with
    | Except.ok t =>
        { state := { s with translation := t },
          warned := false, invokedWith := some transcript, succeeded := true }
    | Except.error _ =>
        { state := s, warned := false, invokedWith := some transcript,
          succeeded := false }

/-- Line 255: `lang=target_lang[:2].lower()` — the speech-synthesis
language code is the first two characters of the target language name,
lowercased character by character (the language names are ASCII, where
Python str.lower lowercases each character). -/
def speechLangCode (target_lang : String) : String :=
  String.mk ((target_lang.take 2).data.map Char.toLower)

/-- One invocation of the Speech Synthesis Service (gTTS, line 255):
the text and language code it was called with. -/
structure SpeakInvocation where
  text : String
  langCode : String
deriving DecidableEq, Repr

/-- The Speak Translation section (main.py lines 252-259): the button
only exists inside `if st.session_state.translation:`, so synthesis can
only be invoked when `translation` is truthy; the gTTS call receives
the translation text and the derived language code.  `none` models the
button not being rendered at all. -/
def onSpeak (s : Session) (target_lang : String) : Option SpeakInvocation :=
  if pyTruthy s.translation then
    some { text := s.translation, langCode := speechLangCode target_lang }
  else
    none

/-- The two audio-acquisition capabilities the source mentions:
microphone recording and file upload. -/
inductive AudioCapability
  | record
  | upload
deriving DecidableEq, Repr

/-- Which acquisition capabilities are live in main.py: the recording
section (lines 211-225) is active code, while the whole file-upload
section (lines 191-208) is commented out, so upload is not reachable. -/
def capabilityEnabled : AudioCapability → Bool
  | AudioCapability.record => true
  | AudioCapability.upload => false

/-- An acquired audio input: provenance, raw bytes and filename.  The
recording path always uses the default name of line 215. -/
structure AudioInput where
  source : AudioCapability
  data : List Nat
  file_name : String
deriving DecidableEq, Repr

/-- The live recording path (lines 211-215): bytes from the widget,
filename fixed to "recorded_audio.wav". -/
def acquireRecording (bytes : List Nat) : AudioInput :=
  { source := AudioCapability.record, data := bytes,
    file_name := "recorded_audio.wav" }

/-- C1: triggering Translate while the selected transcript is empty
fires the warning, never invokes the Translation Service, and leaves
the whole session state (in particular `translation`) unchanged. -/
theorem translate_empty_guard (s : Session) (v : TranscriptVariant)
    (source_lang target_lang : String)
    (svc : String → String → String → Except String String)
    (h : selectTranscript s v = "") :
    (onTranslate s v source_lang target_lang svc).warned = true ∧
    (onTranslate s v source_lang target_lang svc).invokedWith = none ∧
    (onTranslate s v source_lang target_lang svc).state = s := by
  simp [onTranslate, pyTruthy, h]

/-- Witness for C1 at a concrete session with an empty original
transcript and a service that would succeed if it were ever called. -/
theorem translate_empty_guard_witness :
    (onTranslate ⟨"", "x", "old"⟩ TranscriptVariant.original
        "English" "Spanish" (fun t _ _ => Except.ok t)).warned = true ∧
    (onTranslate ⟨"", "x", "old"⟩ TranscriptVariant.original
        "English" "Spanish" (fun t _ _ => Except.ok t)).invokedWith = none ∧
    (onTranslate ⟨"", "x", "old"⟩ TranscriptVariant.original
        "English" "Spanish" (fun t _ _ => Except.ok t)).state = ⟨"", "x", "old"⟩ :=
  translate_empty_guard ⟨"", "x", "old"⟩ TranscriptVariant.original
    "English" "Spanish" (fun t _ _ => Except.ok t) rfl

/-- C2: a successful transcription writes both transcript fields
together — original to the first component, checked to the second —
never only one of the two. -/
theorem transcribe_updates_both (s : Session) (audio : List Nat)
    (fn : String)
    (svc : List Nat → String → Except String (String × String))
    (original checked : String)
    (h : svc audio fn = Except.ok (original, checked)) :
    (onTranscribe s audio fn svc).state.original_transcript = original ∧
    (onTranscribe s audio fn svc).state.checked_transcript = checked ∧
    (onTranscribe s audio fn svc).succeeded = true := by
  simp [onTranscribe, h]

/-- Witness for C2: the spec scenario where transcription returns
the pair ("helo wrld", "Hello world"). -/
theorem transcribe_updates_both_witness :
    (onTranscribe ⟨"", "", ""⟩ [1, 2, 3] "x.wav"
        (fun _ _ => Except.ok ("helo wrld", "Hello world"))).state.original_transcript
      = "helo wrld" ∧
    (onTranscribe ⟨"", "", ""⟩ [1, 2, 3] "x.wav"
        (fun _ _ => Except.ok ("helo wrld", "Hello world"))).state.checked_transcript
      = "Hello world" ∧
    (onTranscribe ⟨"", "", ""⟩ [1, 2, 3] "x.wav"
        (fun _ _ => Except.ok ("helo wrld", "Hello world"))).succeeded = true :=
  transcribe_updates_both ⟨"", "", ""⟩ [1, 2, 3] "x.wav"
    (fun _ _ => Except.ok ("helo wrld", "Hello world"))
    "helo wrld" "Hello world" rfl

/-- C3: a failing Transcription Service call signals failure and leaves
the entire prior session state unchanged — no partial overwrite. -/
theorem transcribe_failure_unchanged (s : Session) (audio : List Nat)
    (fn : String)
    (svc : List Nat → String → Except String (String × String))
    (e : String) (h : svc audio fn = Except.error e) :
    (onTranscribe s audio fn svc).succeeded = false ∧
    (onTranscribe s audio fn svc).state = s := by
  simp [onTranscribe, h]

/-- Witness for C3 at a concrete prior session and an always-failing
transcription service. -/
theorem transcribe_failure_unchanged_witness :
    (onTranscribe ⟨"a", "b", "c"⟩ [7] "x.wav"
        (fun _ _ => Except.error "service down")).succeeded = false ∧
    (onTranscribe ⟨"a", "b", "c"⟩ [7] "x.wav"
        (fun _ _ => Except.error "service down")).state = ⟨"a", "b", "c"⟩ :=
  transcribe_failure_unchanged ⟨"a", "b", "c"⟩ [7] "x.wav"
    (fun _ _ => Except.error "service down") "service down" rfl

/-- C4: with a non-empty selected transcript and a successful
Translation Service response, the handler overwrites `translation`
with the returned text and changes no other session field. -/
theorem translate_success_frame (s : Session) (v : TranscriptVariant)
    (source_lang target_lang : String)
    (svc : String → String → String → Except String String) (t : String)
    (hne : selectTranscript s v ≠ "")
    (h : svc (selectTranscript s v) source_lang target_lang = Except.ok t) :
    (onTranslate s v source_lang target_lang svc).state =
      { s with translation := t } ∧
    (onTranslate s v source_lang target_lang svc).state.original_transcript
      = s.original_transcript ∧
    (onTranslate s v source_lang target_lang svc).state.checked_transcript
      = s.checked_transcript := by
  simp [onTranslate, pyTruthy, hne, h]

/-- Witness for C4: spec scenario transcript="Hello world",
English to Spanish, service returns "Hola mundo". -/
theorem translate_success_frame_witness :
    (onTranslate ⟨"Hello world", "Hello world", "prior"⟩
        TranscriptVariant.original "English" "Spanish"
        (fun _ _ _ => Except.ok "Hola mundo")).state =
      { original_transcript := "Hello world",
        checked_transcript := "Hello world",
        translation := "Hola mundo" } ∧
    (onTranslate ⟨"Hello world", "Hello world", "prior"⟩
        TranscriptVariant.original "English" "Spanish"
        (fun _ _ _ => Except.ok "Hola mundo")).state.original_transcript
      = "Hello world" ∧
    (onTranslate ⟨"Hello world", "Hello world", "prior"⟩
        TranscriptVariant.original "English" "Spanish"
        (fun _ _ _ => Except.ok "Hola mundo")).state.checked_transcript
      = "Hello world" :=
  translate_success_frame ⟨"Hello world", "Hello world", "prior"⟩
    TranscriptVariant.original "English" "Spanish"
    (fun _ _ _ => Except.ok "Hola mundo") "Hola mundo"
    (by decide) rfl

/-- C5: a failing Translation Service call signals failure and leaves
the prior session state, in particular `translation`, unchanged. -/
theorem translate_failure_unchanged (s : Session) (v : TranscriptVariant)
    (source_lang target_lang : String)
    (svc : String → String → String → Except String String) (e : String)
    (hne : selectTranscript s v ≠ "")
    (h : svc (selectTranscript s v) source_lang target_lang
      = Except.error e) :
    (onTranslate s v source_lang target_lang svc).succeeded = false ∧
    (onTranslate s v source_lang target_lang svc).state = s := by
  simp [onTranslate, pyTruthy, hne, h]

/-- Witness for C5 at a concrete session and an always-failing
translation service. -/
theorem translate_failure_unchanged_witness :
    (onTranslate ⟨"Hello", "Hello", "prior"⟩ TranscriptVariant.checked
        "English" "French"
        (fun _ _ _ => Except.error "unreachable")).succeeded = false ∧
    (onTranslate ⟨"Hello", "Hello", "prior"⟩ TranscriptVariant.checked
        "English" "French"
        (fun _ _ _ => Except.error "unreachable")).state
      = ⟨"Hello", "Hello", "prior"⟩ :=
  translate_failure_unchanged ⟨"Hello", "Hello", "prior"⟩
    TranscriptVariant.checked "English" "French"
    (fun _ _ _ => Except.error "unreachable") "unreachable"
    (by decide) rfl

/-- C6: for every supported target language the speech-synthesis code
is the first two characters of the English name, lowercased; Spanish
yields "sp", not the ISO code "es"; and the Speak handler always hands
exactly that derived code to the synthesis service. -/
theorem speech_lang_code_policy :
    supportedLanguages.map speechLangCode =
      ["en", "ur", "sp", "fr", "ge", "it", "ja", "ko", "po", "ru", "ch"] ∧
    speechLangCode "Spanish" = "sp" ∧
    speechLangCode "Spanish" ≠ "es" ∧
    ∀ (s : Session) (target_lang : String) (inv : SpeakInvocation),
      onSpeak s target_lang = some inv →
      inv.langCode = speechLangCode target_lang := by
  refine ⟨by decide, by decide, by decide, ?_⟩
  intro s target_lang inv h
  unfold onSpeak at h
  by_cases ht : pyTruthy s.translation = true
  · rw [if_pos ht] at h
    cases h
    rfl
  · rw [if_neg ht] at h
    cases h

/-- Witness for C6: the spec scenario with translation "Hola mundo"
and target "Spanish" yields the synthesis code "sp". -/
theorem speech_lang_code_policy_witness :
    SpeakInvocation.langCode ⟨"Hola mundo", "sp"⟩ = speechLangCode "Spanish" :=
  speech_lang_code_policy.2.2.2 ⟨"", "", "Hola mundo"⟩ "Spanish"
    ⟨"Hola mundo", "sp"⟩ (by decide)

/-- C7: the Speak Translation action is reachable only when
`translation` is non-empty, and the text handed to the Speech
Synthesis Service is that non-empty translation — the service is
never invoked with an empty text. -/
theorem speak_requires_nonempty (s : Session) (target_lang : String)
    (inv : SpeakInvocation) (h : onSpeak s target_lang = some inv) :
    s.translation ≠ "" ∧ inv.text = s.translation ∧ inv.text ≠ "" := by
  unfold onSpeak at h
  by_cases ht : pyTruthy s.translation = true
  · have hne : s.translation ≠ "" := by
      intro he
      rw [he] at ht
      simp [pyTruthy] at ht
    rw [if_pos ht] at h
    cases h
    exact ⟨hne, rfl, hne⟩
  · rw [if_neg ht] at h
    cases h

/-- Witness for C7 at a concrete session holding a translation. -/
theorem speak_requires_nonempty_witness :
    ("Hola mundo" : String) ≠ "" ∧
    SpeakInvocation.text ⟨"Hola mundo", "sp"⟩ = "Hola mundo" ∧
    SpeakInvocation.text ⟨"Hola mundo", "sp"⟩ ≠ "" :=
  speak_requires_nonempty ⟨"a", "b", "Hola mundo"⟩ "Spanish"
    ⟨"Hola mundo", "sp"⟩ (by decide)

/-- C8 counterexample: the claim says audio can also originate from a
file-upload capability, but the entire upload section of main.py
(lines 191-208) is commented out, so the upload capability is not
enabled in the live code. -/
theorem upload_capability_disabled :
    ¬ (capabilityEnabled AudioCapability.upload = true) := by
  decide

/-- C8 amended: only the live recording capability is enabled (the
upload path is commented out); the downstream transcription workflow
depends only on the supplied audio bytes and filename, so any two
acquisitions carrying the same bytes and filename behave identically
regardless of provenance. -/
theorem audio_record_only_equiv (s : Session) (a b : AudioInput)
    (svc : List Nat → String → Except String (String × String))
    (hd : a.data = b.data) (hf : a.file_name = b.file_name) :
    capabilityEnabled AudioCapability.record = true ∧
    capabilityEnabled AudioCapability.upload = false ∧
    onTranscribe s a.data a.file_name svc =
      onTranscribe s b.data b.file_name svc := by
  refine ⟨rfl, rfl, ?_⟩
  rw [hd, hf]

/-- Witness for C8 amended: a recorded input and a hypothetical upload
input with the same bytes and filename transcribe identically. -/
theorem audio_record_only_equiv_witness :
    (acquireRecording [4, 5]).data =
      (AudioInput.mk AudioCapability.upload [4, 5] "recorded_audio.wav").data ∧
    (acquireRecording [4, 5]).file_name =
      (AudioInput.mk AudioCapability.upload [4, 5] "recorded_audio.wav").file_name ∧
    (capabilityEnabled AudioCapability.record = true ∧
     capabilityEnabled AudioCapability.upload = false ∧
     onTranscribe ⟨"", "", ""⟩ (acquireRecording [4, 5]).data
         (acquireRecording [4, 5]).file_name
         (fun _ _ => Except.ok ("o", "c")) =
       onTranscribe ⟨"", "", ""⟩
         (AudioInput.mk AudioCapability.upload [4, 5] "recorded_audio.wav").data
         (AudioInput.mk AudioCapability.upload [4, 5] "recorded_audio.wav").file_name
         (fun _ _ => Except.ok ("o", "c"))) :=
  ⟨rfl, rfl,
    audio_record_only_equiv ⟨"", "", ""⟩ (acquireRecording [4, 5])
      (AudioInput.mk AudioCapability.upload [4, 5] "recorded_audio.wav")
      (fun _ _ => Except.ok ("o", "c")) rfl rfl⟩

/-- C9: a successful transcription replaces both transcript fields as
one action and leaves `translation` unchanged; a successful
translation replaces only `translation`, leaving both transcript
fields unchanged. -/
theorem phase_frame_effects :
    (∀ (s : Session) (audio : List Nat) (fn : String)
        (svc : List Nat → String → Except String (String × String))
        (o c : String),
      svc audio fn = Except.ok (o, c) →
      (onTranscribe s audio fn svc).state =
        { original_transcript := o, checked_transcript := c,
          translation := s.translation }) ∧
    (∀ (s : Session) (v : TranscriptVariant) (src tgt : String)
        (svc : String → String → String → Except String String)
        (t : String),
      selectTranscript s v ≠ "" →
      svc (selectTranscript s v) src tgt = Except.ok t →
      (onTranslate s v src tgt svc).state =
        { original_transcript := s.original_transcript,
          checked_transcript := s.checked_transcript,
          translation := t }) := by
  constructor
  · intro s audio fn svc o c h
    simp [onTranscribe, h]
  · intro s v src tgt svc t hne h
    simp [onTranslate, pyTruthy, hne, h]

/-- Witness for C9: both frame properties applied at concrete inputs —
a transcription returning ("o", "c") over a prior translation "keep",
and a translation returning "Hola" over prior transcripts. -/
theorem phase_frame_effects_witness :
    (onTranscribe ⟨"x", "y", "keep"⟩ [9] "a.wav"
        (fun _ _ => Except.ok ("o", "c"))).state =
      { original_transcript := "o", checked_transcript := "c",
        translation := "keep" } ∧
    (onTranslate ⟨"Hi", "Hi there", "old"⟩ TranscriptVariant.checked
        "English" "Spanish" (fun _ _ _ => Except.ok "Hola")).state =
      { original_transcript := "Hi", checked_transcript := "Hi there",
        translation := "Hola" } :=
  ⟨phase_frame_effects.1 ⟨"x", "y", "keep"⟩ [9] "a.wav"
      (fun _ _ => Except.ok ("o", "c")) "o" "c" rfl,
   phase_frame_effects.2 ⟨"Hi", "Hi there", "old"⟩ TranscriptVariant.checked
      "English" "Spanish" (fun _ _ _ => Except.ok "Hola") "Hola"
      (by decide) rfl⟩

/-- C10: the empty-transcript guard rejects only the exactly-empty
string: a selected transcript consisting solely of whitespace passes
the guard, no warning fires, and the Translation Service is invoked
with that whitespace text. -/
theorem whitespace_passes_guard (s : Session) (v : TranscriptVariant)
    (source_lang target_lang : String)
    (svc : String → String → String → Except String String)
    (_hws : ∀ ch ∈ (selectTranscript s v).toList, ch.isWhitespace)
    (hne : selectTranscript s v ≠ "") :
    (onTranslate s v source_lang target_lang svc).warned = false ∧
    (onTranslate s v source_lang target_lang svc).invokedWith =
      some (selectTranscript s v) := by
  cases h : svc (selectTranscript s v) source_lang target_lang with
  | ok t => simp [onTranslate, pyTruthy, hne, h]
  | error e => simp [onTranslate, pyTruthy, hne, h]

/-- Witness for C10: the single-space transcript " " passes the guard
and is handed to the translation service verbatim. -/
theorem whitespace_passes_guard_witness :
    (onTranslate ⟨" ", "", "old"⟩ TranscriptVariant.original
        "English" "Spanish" (fun t _ _ => Except.ok t)).warned = false ∧
    (onTranslate ⟨" ", "", "old"⟩ TranscriptVariant.original
        "English" "Spanish" (fun t _ _ => Except.ok t)).invokedWith =
      some " " :=
  whitespace_passes_guard ⟨" ", "", "old"⟩ TranscriptVariant.original
    "English" "Spanish" (fun t _ _ => Except.ok t) (by decide) (by decide)

end HealthcareApp
